import Mathlib

/-!
Verification of the semi-structured complex-number calculator.

Shallow embedding of the core of the repository (`arithmetic.py`,
`calculator_std.py`): triples of reals, the Table-16 multiplication with
its degenerate-angle conventions, the STD and DBZ arithmetic machines,
the parenthesis-free shunting-yard converter, the postfix stack
evaluator, and the STD batch driver.  Python floats are modelled as real
numbers; `math.atan2` is modelled by the standard two-argument
arctangent on ℝ (the signed-zero and non-finite cases of IEEE floats do
not exist in this model).
-/

namespace DbzCalc

open Real

/-- A semi-structured complex number `h = x + yi + zp`, represented as the
ordered triple `(x, y, z)` of reals (`arithmetic.py` module docstring). -/
abbrev Triple : Type := ℝ × ℝ × ℝ

/-- The operator token `+`. -/
def plusOp : String := "+"

/-- The operator token `-`. -/
def minusOp : String := "-"

/-- The operator token `*`. -/
def mulOp : String := "*"

/-- The operator token `/`. -/
def divOp : String := "/"

/-- Function `add`: component-wise sum `(x+a, y+b, z+c)`. -/
def add : Triple → Triple → Triple
  | (x, y, z), (a, b, c) => (x + a, y + b, z + c)

/-- Function `subtract`: component-wise difference `(x-a, y-b, z-c)`. -/
def subtract : Triple → Triple → Triple
  | (x, y, z), (a, b, c) => (x - a, y - b, z - c)

/-- Two-argument arctangent, the model of the Python function `math.atan2(y, x)`:
the angle of the point `(x, y)`, in `(-π, π]` (with `atan2 0 0 = 0`,
as in the C convention Python follows; signed zeros do not exist on ℝ). -/
noncomputable def atan2 (y x : ℝ) : ℝ :=
  if 0 < x then Real.arctan (y / x)
  else if x < 0 ∧ 0 ≤ y then Real.arctan (y / x) + Real.pi
  else if x < 0 ∧ y < 0 then Real.arctan (y / x) - Real.pi
  else if x = 0 ∧ 0 < y then Real.pi / 2
  else if x = 0 ∧ y < 0 then -(Real.pi / 2)
  else 0

open Classical in
/-- Function `multiply`: Table-16 product of two triples (`arithmetic.py`,
lines 58–105).  Intermediate pairs `(A,B)` and `(C,D)`, the two angles
`F` and `G` with the degenerate-angle special cases, and the polar
recombination. -/
noncomputable def multiply : Triple → Triple → Triple
  | (x, y, z), (a, b, c) =>
    let A := x * a - y * b - z * c
    let B := x * b + y * a
    let C := x * c + z * a
    let D := y * c + z * b
    let F := if A = 0 ∧ B = 0 then Real.pi
             else if A = 0 ∧ B ≠ 0 then Real.pi / 2
             else atan2 B A
    let G := if C = 0 ∧ D = 0 then Real.pi
             else if C = 0 ∧ D ≠ 0 then Real.pi / 2
             else atan2 D C
    (Real.sqrt (A ^ 2 + B ^ 2) * Real.cos (F - G),
     Real.sqrt (A ^ 2 + B ^ 2) * Real.sin (F - G),
     Real.sqrt (C ^ 2 + D ^ 2))

/-- Errors the arithmetic machines and the postfix evaluator can raise:
`ZeroDivisionError` (STD divide by `(0,0,0)`), `ValueError` on an
unknown operator, a malformed operand token (Python `float()` failure),
and popping an empty operand stack (Python `IndexError`). -/
inductive CalcError : Type where
  | divideByZero : CalcError
  | unknownOperator : String → CalcError
  | malformedOperand : String → CalcError
  | stackUnderflow : CalcError
deriving Repr, DecidableEq

open Classical in
/-- Arithmetic Machine STD (`arithmetic.py`, lines 112–156): one
operation on two triples; division by exactly `(0,0,0)` raises
`ZeroDivisionError`, any other divisor is inverted and multiplied. -/
noncomputable def arithmetic_machine_std (xyz abc : Triple) (op : String) :
    Except CalcError Triple :=
  if op = plusOp then Except.ok (add xyz abc)
  else if op = minusOp then Except.ok (subtract xyz abc)
  else if op = mulOp then Except.ok (multiply xyz abc)
  else if op = divOp then
    match abc with
    | (a, b, c) =>
      if a = 0 ∧ b = 0 ∧ c = 0 then Except.error CalcError.divideByZero
      else
        let R := 1 / (a * a + b * b + c * c)
        Except.ok (multiply xyz (R * a, -R * b, -R * c))
  else Except.error (CalcError.unknownOperator op)

open Classical in
/-- Arithmetic Machine DBZ (`arithmetic.py`, lines 159–199): identical to
STD except that a zero divisor is replaced by the unstructured unit
`(0,0,1)` instead of raising. -/
noncomputable def arithmetic_machine_dbz (xyz abc : Triple) (op : String) :
    Except CalcError Triple :=
  if op = plusOp then Except.ok (add xyz abc)
  else if op = minusOp then Except.ok (subtract xyz abc)
  else if op = mulOp then Except.ok (multiply xyz abc)
  else if op = divOp then
    match abc with
    | (a₀, b₀, c₀) =>
      match (if a₀ = 0 ∧ b₀ = 0 ∧ c₀ = 0 then ((0 : ℝ), (0 : ℝ), (1 : ℝ))
             else (a₀, b₀, c₀)) with
      | (a, b, c) =>
        let R := 1 / (a * a + b * b + c * c)
        Except.ok (multiply xyz (R * a, -R * b, -R * c))
  else Except.error (CalcError.unknownOperator op)

/-- Modelled from the spec: the inverse `q⁻¹ = (R·a, −R·b, −R·c)` with
`R = 1/(a²+b²+c²)` (spec §4.1, `divide_std` steps 2–3); the code inlines
this computation in the division branch of each machine. -/
noncomputable def inverse_of : Triple → Triple
  | (a, b, c) =>
    let R := 1 / (a * a + b * b + c * c)
    (R * a, -R * b, -R * c)

/-- The operator set (`arithmetic.py`, `OPERATORS`). -/
def OPERATORS : List String := [plusOp, minusOp, mulOp, divOp]

/-- The precedence table (`arithmetic.py`, `PRECEDENCE`); the code only
ever looks up members of `OPERATORS`, so the default `0` is unreachable. -/
def PRECEDENCE (op : String) : Nat :=
  if op = plusOp then 1
  else if op = minusOp then 1
  else if op = mulOp then 2
  else if op = divOp then 2
  else 0

/-- The space character, separator of tokens in an equation string. -/
def spaceChar : Char := Char.ofNat 32

/-- Split a character list at every occurrence of `sep`, keeping empty
pieces (the semantics of Python `str.split(sep)` with an explicit
separator). -/
def splitOnChar (sep : Char) : List Char → List (List Char)
  | [] => [[]]
  | c :: rest =>
    let r := splitOnChar sep rest
    if c = sep then [] :: r
    else
      match r with
      | [] => [[c]]
      | piece :: pieces => (c :: piece) :: pieces

/-- Tokenization of an equation string: the model of Python
`equation_string.strip().split()` restricted to space whitespace — split
on runs of spaces, dropping empty pieces. -/
def tokenize (s : String) : List String :=
  ((splitOnChar spaceChar s.data).filter (fun cs => ¬cs.isEmpty)).map
    (fun cs => String.mk cs)

/-- The pop phase of the operator case of the converter (`arithmetic.py`,
lines 237–240): pop operators off the stack while the top is an operator
of precedence ≥ that of the incoming token; returns the popped prefix (in pop
order) and the remaining stack. -/
def popGE (token : String) : List String → List String × List String
  | [] => ([], [])
  | top :: rest =>
    if top ∈ OPERATORS ∧ PRECEDENCE token ≤ PRECEDENCE top then
      let p := popGE token rest
      (top :: p.1, p.2)
    else ([], top :: rest)

/-- One step of the converter loop (`arithmetic.py`, lines 232–241) on
the state `(operator stack, output)`: an operand is appended to the
output; an operator first pops all stacked operators of precedence ≥ its
own onto the output, then is pushed. -/
def convertStep (state : List String × List String) (token : String) :
    List String × List String :=
  if token ∉ OPERATORS then (state.1, state.2 ++ [token])
  else
    let p := popGE token state.1
    (token :: p.2, state.2 ++ p.1)

/-- Function `infix_to_postfix` (Algorithm 14, `arithmetic.py`, lines 210–247):
shunting-yard without parentheses; after all tokens are consumed the
remaining operators are drained from the stack onto the output. -/
def infix_to_postfix (equation_string : String) : List String :=
  let st := (tokenize equation_string).foldl convertStep ([], [])
  st.2 ++ st.1

/-- Boolean form of the pop condition of the converter loop: the top of
the stack is an operator whose precedence is at least that of the
incoming token. -/
def shouldPop (token top : String) : Bool :=
  decide (top ∈ OPERATORS ∧ PRECEDENCE token ≤ PRECEDENCE top)

/-- The comma character, separator of the components of an operand token. -/
def commaChar : Char := Char.ofNat 44

/-- Numeric value of a decimal digit character. -/
def digitVal (ch : Char) : Nat := ch.toNat - 48

/-- Parse a nonempty string of decimal digits into a natural number. -/
def parseDigits (cs : List Char) : Option Nat :=
  if cs.isEmpty then none
  else cs.foldl
    (fun acc ch => acc.bind
      (fun n => if ch.isDigit then some (10 * n + digitVal ch) else none))
    (some 0)

/-- The minus character. -/
def minusChar : Char := Char.ofNat 45

/-- The decimal-point character. -/
def dotChar : Char := Char.ofNat 46

/-- Parse an unsigned decimal literal `digits[.digits]`, `digits.` or
`.digits` into a rational. -/
def parseUnsigned (cs : List Char) : Option ℚ :=
  match splitOnChar dotChar cs with
  | [intPart] => (parseDigits intPart).map (fun n => (n : ℚ))
  | [intPart, fracPart] =>
    if intPart.isEmpty then
      (parseDigits fracPart).map
        (fun f => (f : ℚ) / ((10 : ℚ) ^ fracPart.length))
    else if fracPart.isEmpty then
      (parseDigits intPart).map (fun n => (n : ℚ))
    else
      (parseDigits intPart).bind (fun n =>
        (parseDigits fracPart).map
          (fun f => (n : ℚ) + (f : ℚ) / ((10 : ℚ) ^ fracPart.length)))
  | _ => none

/-- The model of Python `float()` on a component character list, per the
operand grammar of the spec (§6: decimal numbers, integers or reals,
optionally negative), producing an exact rational; strings outside the
grammar fail as `float` raises `ValueError`. -/
def parseNumChars (cs : List Char) : Option ℚ :=
  match cs with
  | [] => none
  | ch :: rest =>
    if ch = minusChar then (parseUnsigned rest).map (fun q => -q)
    else parseUnsigned cs

/-- The rational-valued core of `_parse_triple` (`arithmetic.py`,
lines 254–257): split the token on commas and convert the first three
pieces; fewer than three pieces is an `IndexError`, extra pieces are
ignored (Python reads `parts[0..2]`). -/
def parse_tripleQ (token : String) : Option (ℚ × ℚ × ℚ) :=
  match splitOnChar commaChar token.data with
  | p0 :: p1 :: p2 :: _ =>
    (parseNumChars p0).bind (fun q0 =>
      (parseNumChars p1).bind (fun q1 =>
        (parseNumChars p2).map (fun q2 => (q0, q1, q2))))
  | _ => none

/-- Function `_parse_triple`: the rational parse, embedded into the real triples
the arithmetic operates on. -/
def parse_triple (token : String) : Option Triple :=
  (parse_tripleQ token).map (fun q => (((q.1 : ℝ), (q.2.1 : ℝ), (q.2.2 : ℝ)) : Triple))

/-- One step of the evaluator loop (`arithmetic.py`, lines 277–284) on
the operand stack (head = top of stack): an operand token is parsed and
pushed; an operator pops the top as the second operand, the next as the
first, applies the machine and pushes the result. -/
def evalStep (machine : Triple → Triple → String → Except CalcError Triple)
    (stack : List Triple) (token : String) : Except CalcError (List Triple) :=
  if token ∉ OPERATORS then
    match parse_triple token with
    | some t => Except.ok (t :: stack)
    | none => Except.error (CalcError.malformedOperand token)
  else
    match stack with
    | second :: first :: rest =>
      (machine first second token).map (fun r => r :: rest)
    | _ => Except.error CalcError.stackUnderflow

/-- Function `evaluate_postfix` (Algorithm 15, `arithmetic.py`, lines 260–286):
stack evaluation of a postfix token list with the supplied arithmetic
machine; the final `pop()` returns the top of the remaining stack. -/
def evaluate_postfix (tokens : List String)
    (machine : Triple → Triple → String → Except CalcError Triple) :
    Except CalcError Triple := do
  let stack ← tokens.foldlM (evalStep machine) []
  match stack with
  | t :: _ => Except.ok t
  | [] => Except.error CalcError.stackUnderflow

/-- Per-equation result of the STD calculator, at the level of values:
`value t` stands for the formatted triple `_fmt t`, `err` for the
failure marker string `"ERR"` recorded on `ZeroDivisionError`, and
`errOther e` for the `"ERR:..."` string of any other exception
(`calculator_std.py`, lines 64–74; the float-to-string rendering of
`_fmt` itself is not modelled). -/
inductive CalcResult : Type where
  | value : Triple → CalcResult
  | err : CalcResult
  | errOther : CalcError → CalcResult

/-- Accumulated state of `run_std_calculator`: the per-equation results
in order, the count of completed equations, and the count of equations
aborted by division by zero. -/
structure StdRunResult : Type where
  results : List CalcResult
  equations_completed : Nat
  dbz_count : Nat

/-- One iteration of the STD driver loop (`calculator_std.py`,
lines 64–74): convert, evaluate with the STD machine, record the
formatted triple on success, `"ERR"` on `ZeroDivisionError`, and
`"ERR:..."` on any other exception. -/
noncomputable def stdLoopBody (acc : StdRunResult) (eq : String) : StdRunResult :=
  match acc with
  | ⟨rs, done, dbz⟩ =>
    match evaluate_postfix ( infix_to_postfix eq) arithmetic_machine_std with
    | Except.ok t => ⟨rs ++ [CalcResult.value t], done + 1, dbz⟩
    | Except.error CalcError.divideByZero => ⟨rs ++ [CalcResult.err], done, dbz + 1⟩
    | Except.error e => ⟨rs ++ [CalcResult.errOther e], done, dbz⟩

/-- Function `run_std_calculator` (`calculator_std.py`, lines 40–80): process a
batch of infix equation strings with the STD machine, one at a time. -/
noncomputable def run_std_calculator (equations : List String) : StdRunResult :=
  equations.foldl stdLoopBody ⟨[], 0, 0⟩

/-- The result the STD driver records for a single equation, read off
the `try/except` arms of `calculator_std.py`, lines 65–74. -/
noncomputable def stdProcessOne (eq : String) : CalcResult :=
  match evaluate_postfix ( infix_to_postfix eq) arithmetic_machine_std with
  | Except.ok t => CalcResult.value t
  | Except.error CalcError.divideByZero => CalcResult.err
  | Except.error e => CalcResult.errOther e

open Classical in
/-- Modelled from the spec: `multiply` as §4.1 states it, steps 1–6 —
the two polar pairs, the angle rule applied to `(A,B)` and identically
to `(C,D)`, the magnitudes `mag1`, `mag2`, and the recombined result
`(mag1·cos(F−G), mag1·sin(F−G), mag2)`. -/
noncomputable def multiply_spec : Triple → Triple → Triple
  | (x, y, z), (a, b, c) =>
    let A := x * a - y * b - z * c
    let B := x * b + y * a
    let C := x * c + z * a
    let D := y * c + z * b
    let F := if A = 0 ∧ B = 0 then Real.pi
             else if A = 0 ∧ B ≠ 0 then Real.pi / 2
             else atan2 B A
    let G := if C = 0 ∧ D = 0 then Real.pi
             else if C = 0 ∧ D ≠ 0 then Real.pi / 2
             else atan2 D C
    let mag1 := Real.sqrt (A ^ 2 + B ^ 2)
    let mag2 := Real.sqrt (C ^ 2 + D ^ 2)
    (mag1 * Real.cos (F - G), mag1 * Real.sin (F - G), mag2)

/-! ## Helper lemmas -/

/-- The zero triple written as a product equality, component-wise. -/
lemma triple_eq_zero_iff (a b c : ℝ) :
    ((a, b, c) : Triple) = ((0 : ℝ), 0, 0) ↔ a = 0 ∧ b = 0 ∧ c = 0 := by
  simp only [Prod.mk.injEq]

/-- Unfolding the STD machine at the division operator. -/
lemma std_div_eq (p : Triple) (a b c : ℝ) :
    arithmetic_machine_std p (a, b, c) divOp =
      (if a = 0 ∧ b = 0 ∧ c = 0 then Except.error CalcError.divideByZero
       else
         Except.ok (multiply p
           ((1 / (a * a + b * b + c * c)) * a,
            -(1 / (a * a + b * b + c * c)) * b,
            -(1 / (a * a + b * b + c * c)) * c))) := by
  unfold arithmetic_machine_std
  rw [if_neg (by decide), if_neg (by decide), if_neg (by decide), if_pos rfl]

/-- Unfolding the DBZ machine at the division operator. -/
lemma dbz_div_eq (p : Triple) (a₀ b₀ c₀ : ℝ) :
    arithmetic_machine_dbz p (a₀, b₀, c₀) divOp =
      (match (if a₀ = 0 ∧ b₀ = 0 ∧ c₀ = 0 then ((0 : ℝ), (0 : ℝ), (1 : ℝ))
             else (a₀, b₀, c₀)) with
       | (a, b, c) =>
         Except.ok (multiply p
           ((1 / (a * a + b * b + c * c)) * a,
            -(1 / (a * a + b * b + c * c)) * b,
            -(1 / (a * a + b * b + c * c)) * c))) := by
  unfold arithmetic_machine_dbz
  rw [if_neg (by decide), if_neg (by decide), if_neg (by decide), if_pos rfl]

/-! ## Claim theorems -/

/-- Claim C9: For all triples `p` and `q`, `add (subtract p q) q = p`:
subtracting a triple component-wise and adding it back restores the
original triple (exactly, in the real-number model). -/
theorem add_subtract_roundtrip (p q : Triple) : add (subtract p q) q = p := by
  obtain ⟨x, y, z⟩ := p
  obtain ⟨a, b, c⟩ := q
  simp [add, subtract]

/-- Claim C1: `arithmetic_machine_std p q "/"` fails with `DivideByZero`
iff the divisor `q` is exactly `(0,0,0)`; for any other divisor
`(a,b,c)` it returns `multiply p (R*a, -R*b, -R*c)` with
`R = 1/(a²+b²+c²)` (that is, `multiply p (inverse_of q)`) and does not
fail. -/
theorem std_divide_by_zero_iff (p q : Triple) :
    (arithmetic_machine_std p q divOp = Except.error CalcError.divideByZero ↔
      q = ((0 : ℝ), 0, 0)) ∧
    (q ≠ ((0 : ℝ), 0, 0) →
      arithmetic_machine_std p q divOp = Except.ok (multiply p (inverse_of q))) := by
  obtain ⟨a, b, c⟩ := q
  rw [std_div_eq]
  by_cases h0 : a = 0 ∧ b = 0 ∧ c = 0
  · rw [if_pos h0]
    constructor
    · exact ⟨fun _ => (triple_eq_zero_iff a b c).mpr h0, fun _ => rfl⟩
    · intro hne
      exact absurd ((triple_eq_zero_iff a b c).mpr h0) hne
  · rw [if_neg h0]
    constructor
    · constructor
      · intro hx
        exact absurd hx (by simp)
      · intro hx
        exact absurd ((triple_eq_zero_iff a b c).mp hx) h0
    · intro _
      simp [inverse_of]

/-- Witness for claim C1: at the concrete divisor `(0,0,1)` the STD
machine succeeds and returns the product with the inverse. -/
theorem std_divide_by_zero_iff_witness :
    arithmetic_machine_std ((1 : ℝ), 0, 0) ((0 : ℝ), 0, 1) divOp =
      Except.ok (multiply ((1 : ℝ), 0, 0) (inverse_of ((0 : ℝ), 0, 1))) :=
  (std_divide_by_zero_iff ((1 : ℝ), 0, 0) ((0 : ℝ), 0, 1)).2 (by simp)

/-- Claim C2: The DBZ machine is total on the four operators: for every
pair of triples and every `op ∈ {+, -, *, /}` — including division by
any divisor, zero or not — it returns a result triple and never fails. -/
theorem dbz_total (p q : Triple) (op : String) (h : op ∈ OPERATORS) :
    ∃ t, arithmetic_machine_dbz p q op = Except.ok t := by
  obtain ⟨a, b, c⟩ := q
  simp only [OPERATORS, List.mem_cons, List.mem_singleton, List.not_mem_nil,
    or_false] at h
  rcases h with h | h | h | h <;> subst h
  · refine ⟨add p (a, b, c), ?_⟩
    unfold arithmetic_machine_dbz
    rw [if_pos rfl]
  · refine ⟨subtract p (a, b, c), ?_⟩
    unfold arithmetic_machine_dbz
    rw [if_neg (by decide), if_pos rfl]
  · refine ⟨multiply p (a, b, c), ?_⟩
    unfold arithmetic_machine_dbz
    rw [if_neg (by decide), if_neg (by decide), if_pos rfl]
  · rw [dbz_div_eq]
    by_cases h0 : a = 0 ∧ b = 0 ∧ c = 0
    · rw [if_pos h0]
      exact ⟨_, rfl⟩
    · rw [if_neg h0]
      exact ⟨_, rfl⟩

/-- Witness for claim C2: the DBZ machine succeeds even on division by the
zero triple. -/
theorem dbz_total_witness :
    divOp ∈ OPERATORS ∧
      ∃ t, arithmetic_machine_dbz ((1 : ℝ), 0, 0) ((0 : ℝ), 0, 0) divOp =
        Except.ok t :=
  ⟨by decide, dbz_total ((1 : ℝ), 0, 0) ((0 : ℝ), 0, 0) divOp (by decide)⟩

/-- Claim C3: Dividing any `p` by the zero triple under the DBZ policy
succeeds and gives exactly `multiply p (inverse_of (0,0,1))`: the result
of dividing `p` by the unstructured unit `(0,0,1)`. -/
theorem dbz_div_zero (p : Triple) :
    arithmetic_machine_dbz p ((0 : ℝ), 0, 0) divOp =
      Except.ok (multiply p (inverse_of ((0 : ℝ), 0, 1))) := by
  rw [dbz_div_eq, if_pos ⟨rfl, rfl, rfl⟩]
  simp [inverse_of]

/-- Claim C4: For every pair of triples, the function `multiply` of the code computes
exactly the step sequence the spec prescribes: `A = x·a − y·b − z·c`,
`B = x·b + y·a`, `C = x·c + z·a`, `D = y·c + z·b`; `F` is `π` when
`A = 0 ∧ B = 0`, `π/2` when `A = 0 ∧ B ≠ 0`, `atan2 B A` otherwise (and
`G` by the identical rule on `(C, D)`); and the result is
`(√(A²+B²)·cos(F−G), √(A²+B²)·sin(F−G), √(C²+D²))`. -/
theorem multiply_refines_spec (p q : Triple) :
    multiply p q = multiply_spec p q := by
  obtain ⟨x, y, z⟩ := p
  obtain ⟨a, b, c⟩ := q
  rfl

/-- The third component of every product is a square root, hence
non-negative. -/
lemma multiply_z_nonneg (p q : Triple) : 0 ≤ (multiply p q).2.2 := by
  obtain ⟨x, y, z⟩ := p
  obtain ⟨a, b, c⟩ := q
  exact Real.sqrt_nonneg ((x * c + z * a) ^ 2 + (y * c + z * b) ^ 2)

/-- Claim C5: The required regression case: `multiply (1,0,0) (2,0,0)`
takes the degenerate-angle path with `A=2, B=0, C=0, D=0`,
`F = atan2 0 2 = 0`, `G = π`, and returns
`(√4·cos(0−π), √4·sin(0−π), 0)`, which is exactly `(-2, 0, 0)` (the
"approximately 0" middle component of the claim is exactly 0 in the
real-number model). -/
theorem multiply_regression :
    atan2 0 2 = 0 ∧
    multiply ((1 : ℝ), 0, 0) ((2 : ℝ), 0, 0) =
      (Real.sqrt 4 * Real.cos (0 - Real.pi),
       Real.sqrt 4 * Real.sin (0 - Real.pi), 0) ∧
    multiply ((1 : ℝ), 0, 0) ((2 : ℝ), 0, 0) = ((-2 : ℝ), 0, 0) := by
  have hatan : atan2 0 2 = 0 := by
    unfold atan2
    rw [if_pos (by norm_num : (0 : ℝ) < 2)]
    norm_num [Real.arctan_zero]
  have h4 : Real.sqrt 4 = 2 := by
    rw [show (4 : ℝ) = 2 ^ 2 by norm_num]
    exact Real.sqrt_sq (by norm_num)
  have hmul : multiply ((1 : ℝ), 0, 0) ((2 : ℝ), 0, 0) =
      (Real.sqrt 4 * Real.cos (0 - Real.pi),
       Real.sqrt 4 * Real.sin (0 - Real.pi), 0) := by
    simp only [multiply]
    norm_num [hatan]
  refine ⟨hatan, hmul, ?_⟩
  rw [hmul, h4, zero_sub, Real.cos_neg, Real.cos_pi, Real.sin_neg, Real.sin_pi]
  norm_num

/-- Claim C10: For every pair of input triples the third component of
`multiply` is non-negative (it is `√(C²+D²)`); consequently neither
division machine — both defined through `multiply` — can ever produce a
result whose z-component is negative. -/
theorem result_z_nonneg (p q : Triple) :
    0 ≤ (multiply p q).2.2 ∧
    (match arithmetic_machine_std p q divOp with
     | Except.ok t => 0 ≤ t.2.2
     | Except.error _ => True) ∧
    (match arithmetic_machine_dbz p q divOp with
     | Except.ok t => 0 ≤ t.2.2
     | Except.error _ => True) := by
  obtain ⟨a, b, c⟩ := q
  refine ⟨multiply_z_nonneg p (a, b, c), ?_, ?_⟩
  · rw [std_div_eq]
    by_cases h0 : a = 0 ∧ b = 0 ∧ c = 0
    · rw [if_pos h0]
      trivial
    · rw [if_neg h0]
      exact multiply_z_nonneg p _
  · rw [dbz_div_eq]
    by_cases h0 : a = 0 ∧ b = 0 ∧ c = 0
    · rw [if_pos h0]
      exact multiply_z_nonneg p _
    · rw [if_neg h0]
      exact multiply_z_nonneg p _

/-- Claim C6: the converter implements parenthesis-free shunting-yard —
the pop loop of the operator case removes exactly the maximal stack
prefix of operators of precedence ≥ the incoming operator; each operand
token is appended to the output; each operator token first pops and
appends that prefix, then is pushed; remaining operators are drained at
the end; and concretely the infix string `"1,0,0 + 2,0,0 * 3,0,0"`
converts to `["1,0,0", "2,0,0", "3,0,0", "*", "+"]`. -/
theorem shunting_yard_spec :
    (∀ token stack, popGE token stack =
      (stack.takeWhile (shouldPop token), stack.dropWhile (shouldPop token))) ∧
    (∀ state token, convertStep state token =
      if token ∈ OPERATORS then
        (token :: state.1.dropWhile (shouldPop token),
         state.2 ++ state.1.takeWhile (shouldPop token))
      else (state.1, state.2 ++ [token])) ∧
    (∀ s, infix_to_postfix s =
      ((tokenize s).foldl convertStep ([], [])).2 ++
        ((tokenize s).foldl convertStep ([], [])).1) ∧
    infix_to_postfix ("1,0,0 + 2,0,0 * 3,0,0") =
      [("1,0,0"), ("2,0,0"), ("3,0,0"), ("*"), ("+")] := by
  have hpop : ∀ token stack, popGE token stack =
      (stack.takeWhile (shouldPop token), stack.dropWhile (shouldPop token)) := by
    intro token stack
    induction stack with
    | nil => rfl
    | cons top rest ih =>
      by_cases h : top ∈ OPERATORS ∧ PRECEDENCE token ≤ PRECEDENCE top
      · simp [popGE, ih, List.takeWhile_cons, List.dropWhile_cons, shouldPop, h]
      · simp [popGE, List.takeWhile_cons, List.dropWhile_cons, shouldPop, h]
  refine ⟨hpop, ?_, fun _ => rfl, by decide⟩
  intro state token
  by_cases ht : token ∈ OPERATORS
  · simp [convertStep, ht, hpop]
  · simp [convertStep, ht]

/-- Unfolding the STD machine at the subtraction operator. -/
lemma std_minus_eq (p q : Triple) :
    arithmetic_machine_std p q minusOp = Except.ok (subtract p q) := by
  unfold arithmetic_machine_std
  rw [if_neg (by decide), if_pos rfl]

/-- Unfolding the DBZ machine at the subtraction operator. -/
lemma dbz_minus_eq (p q : Triple) :
    arithmetic_machine_dbz p q minusOp = Except.ok (subtract p q) := by
  unfold arithmetic_machine_dbz
  rw [if_neg (by decide), if_pos rfl]

/-- Evaluation of the operand token `"5,0,0"`. -/
lemma parse_five : parse_triple ("5,0,0") = some ((5 : ℝ), 0, 0) := by
  have h : parse_tripleQ ("5,0,0") = some ((5 : ℚ), 0, 0) := by decide
  simp [parse_triple, h]

/-- Evaluation of the operand token `"2,0,0"`. -/
lemma parse_two : parse_triple ("2,0,0") = some ((2 : ℝ), 0, 0) := by
  have h : parse_tripleQ ("2,0,0") = some ((2 : ℚ), 0, 0) := by decide
  simp [parse_triple, h]

/-- Bind of a successful `Except` computation. -/
lemma except_bind_ok {ε α β : Type} (x : α) (f : α → Except ε β) :
    ((Except.ok x : Except ε α) >>= f) = f x := rfl

/-- Pushing an operand token onto the evaluation stack. -/
lemma evalStep_operand (machine : Triple → Triple → String → Except CalcError Triple)
    (stack : List Triple) (token : String) (t : Triple)
    (hop : token ∉ OPERATORS) (hp : parse_triple token = some t) :
    evalStep machine stack token = Except.ok (t :: stack) := by
  unfold evalStep
  rw [if_pos hop, hp]

/-- Claim C7: the evaluator applies each operator with the popped top of
the stack as the second operand and the next popped element as the
first, so operand order is preserved for non-commutative operations;
concretely, the postfix sequence `["5,0,0", "2,0,0", "-"]` evaluates
under either machine to `subtract (5,0,0) (2,0,0) = (3,0,0)`, not
`(-3,0,0)`. -/
theorem evaluator_operand_order :
    (∀ (machine : Triple → Triple → String → Except CalcError Triple)
       (first second : Triple) (rest : List Triple) (op : String),
      op ∈ OPERATORS →
        evalStep machine (second :: first :: rest) op =
          (machine first second op).map (fun r => r :: rest)) ∧
    evaluate_postfix [("5,0,0"), ("2,0,0"), ("-")] arithmetic_machine_std =
      Except.ok (subtract ((5 : ℝ), 0, 0) ((2 : ℝ), 0, 0)) ∧
    evaluate_postfix [("5,0,0"), ("2,0,0"), ("-")] arithmetic_machine_dbz =
      Except.ok (subtract ((5 : ℝ), 0, 0) ((2 : ℝ), 0, 0)) ∧
    subtract ((5 : ℝ), 0, 0) ((2 : ℝ), 0, 0) = ((3 : ℝ), 0, 0) := by
  have hstep : ∀ (machine : Triple → Triple → String → Except CalcError Triple)
      (first second : Triple) (rest : List Triple) (op : String),
      op ∈ OPERATORS →
        evalStep machine (second :: first :: rest) op =
          (machine first second op).map (fun r => r :: rest) := by
    intro machine first second rest op hop
    unfold evalStep
    rw [if_neg (not_not_intro hop)]
  have hrun : ∀ (machine : Triple → Triple → String → Except CalcError Triple),
      machine ((5 : ℝ), 0, 0) ((2 : ℝ), 0, 0) minusOp =
        Except.ok (subtract ((5 : ℝ), 0, 0) ((2 : ℝ), 0, 0)) →
      evaluate_postfix [("5,0,0"), ("2,0,0"), ("-")] machine =
        Except.ok (subtract ((5 : ℝ), 0, 0) ((2 : ℝ), 0, 0)) := by
    intro machine hm
    show evaluate_postfix [("5,0,0"), ("2,0,0"), minusOp] machine =
      Except.ok (subtract ((5 : ℝ), 0, 0) ((2 : ℝ), 0, 0))
    have e1 := evalStep_operand machine [] ("5,0,0") ((5 : ℝ), 0, 0)
      (by decide) parse_five
    have e2 := evalStep_operand machine [((5 : ℝ), 0, 0)] ("2,0,0") ((2 : ℝ), 0, 0)
      (by decide) parse_two
    have e3 : evalStep machine [((2 : ℝ), 0, 0), ((5 : ℝ), 0, 0)] minusOp =
        Except.ok [subtract ((5 : ℝ), 0, 0) ((2 : ℝ), 0, 0)] := by
      rw [hstep machine ((5 : ℝ), 0, 0) ((2 : ℝ), 0, 0) [] minusOp (by decide), hm]
      rfl
    have hfold : List.foldlM (evalStep machine) ([] : List Triple)
        [("5,0,0"), ("2,0,0"), minusOp] =
        Except.ok [subtract ((5 : ℝ), 0, 0) ((2 : ℝ), 0, 0)] := by
      simp only [List.foldlM]
      rw [e1, except_bind_ok, e2, except_bind_ok, e3]
      rfl
    unfold evaluate_postfix
    rw [hfold]
    rfl
  refine ⟨hstep, ?_, ?_, ?_⟩
  · exact hrun arithmetic_machine_std (std_minus_eq _ _)
  · exact hrun arithmetic_machine_dbz (dbz_minus_eq _ _)
  · norm_num [subtract]

/-- Witness for claim C7: the general pop-order statement applied at the
concrete operator `-` and the concrete stack `[(2,0,0), (5,0,0)]`. -/
theorem evaluator_operand_order_witness :
    evalStep arithmetic_machine_std (((2 : ℝ), 0, 0) :: ((5 : ℝ), 0, 0) :: []) minusOp =
      (arithmetic_machine_std ((5 : ℝ), 0, 0) ((2 : ℝ), 0, 0) minusOp).map
        (fun r => r :: []) :=
  evaluator_operand_order.1 arithmetic_machine_std ((5 : ℝ), 0, 0) ((2 : ℝ), 0, 0)
    [] minusOp (by decide)

/-- Evaluation of the operand token `"1,0,0"`. -/
lemma parse_one : parse_triple ("1,0,0") = some ((1 : ℝ), 0, 0) := by
  have h : parse_tripleQ ("1,0,0") = some ((1 : ℚ), 0, 0) := by decide
  simp [parse_triple, h]

/-- Evaluation of the operand token `"0,0,0"`. -/
lemma parse_zero : parse_triple ("0,0,0") = some ((0 : ℝ), 0, 0) := by
  have h : parse_tripleQ ("0,0,0") = some ((0 : ℚ), 0, 0) := by decide
  simp [parse_triple, h]

/-- End-to-end evaluation of the equation `"1,0,0 / 0,0,0"` with the STD
machine: it aborts with the division-by-zero error. -/
lemma std_div_zero_equation :
    evaluate_postfix ( infix_to_postfix ("1,0,0 / 0,0,0")) arithmetic_machine_std =
      Except.error CalcError.divideByZero := by
  have hconv : infix_to_postfix ("1,0,0 / 0,0,0") =
      [("1,0,0"), ("0,0,0"), divOp] := by decide
  have e1 := evalStep_operand arithmetic_machine_std [] ("1,0,0") ((1 : ℝ), 0, 0)
    (by decide) parse_one
  have e2 := evalStep_operand arithmetic_machine_std [((1 : ℝ), 0, 0)] ("0,0,0")
    ((0 : ℝ), 0, 0) (by decide) parse_zero
  have e3 : evalStep arithmetic_machine_std [((0 : ℝ), 0, 0), ((1 : ℝ), 0, 0)] divOp =
      Except.error CalcError.divideByZero := by
    unfold evalStep
    rw [if_neg (by decide)]
    show Except.map _ (arithmetic_machine_std ((1 : ℝ), 0, 0) ((0 : ℝ), 0, 0) divOp) =
      Except.error CalcError.divideByZero
    rw [std_div_eq, if_pos ⟨rfl, rfl, rfl⟩]
    rfl
  have hfold : List.foldlM (evalStep arithmetic_machine_std) ([] : List Triple)
      [("1,0,0"), ("0,0,0"), divOp] = Except.error CalcError.divideByZero := by
    simp only [List.foldlM]
    rw [e1, except_bind_ok, e2, except_bind_ok, e3]
    rfl
  rw [hconv]
  unfold evaluate_postfix
  rw [hfold]
  rfl

/-- Appending one equation to the accumulated STD run: the results list
grows by exactly the result of that equation. -/
lemma stdLoopBody_results (acc : StdRunResult) (eq : String) :
    (stdLoopBody acc eq).results = acc.results ++ [stdProcessOne eq] := by
  obtain ⟨rs, done, dbz⟩ := acc
  unfold stdLoopBody stdProcessOne
  cases h : evaluate_postfix ( infix_to_postfix eq) arithmetic_machine_std with
  | ok t => rfl
  | error e => cases e <;> rfl

/-- The STD driver loop is a map over the equations: the results of
processing the remaining equations extend the accumulator on the right. -/
lemma run_std_results (eqs : List String) (acc : StdRunResult) :
    (eqs.foldl stdLoopBody acc).results = acc.results ++ eqs.map stdProcessOne := by
  induction eqs generalizing acc with
  | nil => simp
  | cons e rest ih =>
    rw [List.foldl_cons, ih, stdLoopBody_results]
    simp

/-- Claim C8: for every batch of equation strings, `run_std_calculator`
returns one result per equation, in order — `results[i]` is produced
from `equations[i]` alone by the per-equation pipeline `stdProcessOne`,
an equation whose evaluation raises `DivideByZero` contributes the
failure marker (`CalcResult.err`, rendered `"ERR"`), processing
continues past failures, and no equation affects any other. -/
theorem run_std_batch (equations : List String) :
    (run_std_calculator equations).results = equations.map stdProcessOne ∧
    (run_std_calculator equations).results.length = equations.length ∧
    stdProcessOne ("1,0,0 / 0,0,0") = CalcResult.err := by
  have h1 : (run_std_calculator equations).results = equations.map stdProcessOne := by
    unfold run_std_calculator
    rw [run_std_results]
    rfl
  refine ⟨h1, ?_, ?_⟩
  · rw [h1, List.length_map]
  · unfold stdProcessOne
    rw [std_div_zero_equation]

end DbzCalc
